import Mathlib

set_option maxRecDepth 100000

/-
  Verification of the CodeAssist AI four-stage pipeline
  (repository sources: src/gradio.py and src/multi_tool_agent/agent.py).

  The repository wires four LlmAgent stage definitions into a
  SequentialAgent and runs it through a vendor framework (google.adk).
  Everything defined in src/ is embedded below from the source text.
  The framework pieces the sources call but do not define
  (the SequentialAgent runner, the InMemorySessionService store,
  uuid.uuid4) are modelled from the specification, and each such
  definition is marked "Modelled from the spec".
-/

namespace CodeAssist

/-! ## Generic association-list store

Python dictionaries (`user_sessions`) and the in-memory session store are
modelled as association lists observed through `getKV`; `setKV` shadows
any earlier binding, which is observationally the same as a dict update. -/

def setKV {α β : Type} (m : List (α × β)) (k : α) (v : β) : List (α × β) :=
  (k, v) :: m

def getKV {α β : Type} [DecidableEq α] : List (α × β) → α → Option β
  | [], _ => none
  | p :: rest, k => if p.1 = k then some p.2 else getKV rest k

/-! ## Substring test, used to say which session-state keys an
instruction template mentions. -/

def charsPre : List Char → List Char → Bool
  | [], _ => true
  | _ :: _, [] => false
  | a :: as, b :: bs => a == b && charsPre as bs

def charsSub (pat : List Char) : List Char → Bool
  | [] => charsPre pat []
  | b :: bs => charsPre pat (b :: bs) || charsSub pat bs

/-- `strContains s pat` is true when `pat` occurs as a contiguous
substring of `s`. -/
def strContains (s pat : String) : Bool := charsSub pat.toList s.toList

/-! ## Data model -/

/-- Session state: mapping from stage output-key to produced text. -/
abbrev SessionState := List (String × String)

/-- An LlmAgent stage definition, as constructed in the sources:
name, model, instruction template, description, declared output-key and
tool list (tools are carried by name only; their behaviour is external). -/
structure LlmAgent where
  name : String
  model : String
  instruction : String
  description : String
  output_key : String
  tools : List String
  deriving Repr, DecidableEq

/-- A SequentialAgent: a named, ordered list of sub-agents. -/
structure SequentialAgent where
  name : String
  sub_agents : List LlmAgent
  description : String
  deriving Repr, DecidableEq

/-- One event yielded by a run: the emitting stage, the session state
visible when the stage started, whether the event is a final response,
and its text. -/
structure Event where
  author : String
  seen_state : SessionState
  is_final_response : Bool
  text : String
  deriving Repr, DecidableEq

end CodeAssist

namespace CodeAssist

def APP_NAME : String := "code_assistant_app"

def GEMINI_MODEL : String := "gemini-2.0-flash-exp"

namespace Gradio

/-- src/gradio.py `code_understanding_agent` (textually identical in
src/multi_tool_agent/agent.py). -/
def code_understanding_agent : LlmAgent :=
  { name := "CodeUnderstandingAgent"
    model := GEMINI_MODEL
    instruction := "You are a Code Understanding AI.
    Based on the user\x27s coding request, formulate a clear understanding of:
    1. The programming task or problem they\x27re trying to solve
    2. The language, framework, or technologies involved
    3. Any specific requirements or constraints

    If the user has provided code, analyze it to understand its purpose and structure.
    If the user is reporting an error, identify what they\x27re trying to accomplish.

    Output a concise summary of the coding task and what the user needs help with.
    "
    description := "Understands coding problems and requirements from user queries."
    output_key := "coding_task_understanding"
    tools := ["google_search"] }

/-- src/gradio.py `research_agent` (textually identical in
src/multi_tool_agent/agent.py). -/
def research_agent : LlmAgent :=
  { name := "ResearchAgent"
    model := GEMINI_MODEL
    instruction := "You are a Coding Research AI.
    Take the coding task understanding from the session state under the key \x27coding_task_understanding\x27.

    Formulate 2-3 specific search queries to find:
    1. Official documentation relevant to the task
    2. Code examples solving similar problems
    3. Common issues or errors related to this task and their solutions

    Perform Google searches using these queries and collect the most relevant information.
    Focus on recent, authoritative sources like official documentation, GitHub repositories, Stack Overflow answers, and reputable coding blogs.

    Organize this information clearly, including:
    - Links to key documentation
    - Code snippets that demonstrate solutions
    - Explanations of common pitfalls or best practices
    "
    description := "Researches coding solutions and best practices."
    output_key := "coding_research"
    tools := ["google_search"] }

/-- src/gradio.py `code_generation_agent` (textually identical in
src/multi_tool_agent/agent.py). -/
def code_generation_agent : LlmAgent :=
  { name := "CodeGenerationAgent"
    model := GEMINI_MODEL
    instruction := "You are a Code Generation and Debugging AI.
    Review the coding task understanding and research from the session state keys \x27coding_task_understanding\x27 and \x27coding_research\x27.

    Based on this information:

    1. IF THE USER NEEDS NEW CODE:
       - Generate well-structured, efficient code that solves their problem
       - Include clear comments explaining key parts of the code
       - Follow best practices for the language/framework
       - Handle potential edge cases and errors

    2. IF THE USER HAS CODE WITH ERRORS:
       - Identify the likely causes of the error
       - Provide fixed code with corrections clearly marked
       - Explain what was causing the error and why the fix works

    3. IF THE USER WANTS TO IMPROVE EXISTING CODE:
       - Suggest optimizations for performance, readability, or maintainability
       - Provide refactored code examples
       - Explain the benefits of the improvements

    Output complete, executable code snippets that directly address the user\x27s needs.
    "
    description := "Generates code solutions or provides debugging fixes."
    output_key := "code_solution"
    tools := [] }

/-- src/gradio.py `explanation_agent`.  The agent.py variant differs only
by not having the final Markdown-formatting sentence; see
`ConsoleApp.explanation_agent`. -/
def explanation_agent : LlmAgent :=
  { name := "ExplanationAgent"
    model := GEMINI_MODEL
    instruction := "You are a Code Explanation AI.
    Review the coding task understanding, research, and solution from the session state.

    Create a comprehensive but concise explanation that includes:

    1. SOLUTION OVERVIEW:
       - Summarize the approach taken to solve the problem
       - Explain why this approach is appropriate

    2. CODE WALKTHROUGH:
       - Break down how the key parts of the code work
       - Highlight important functions, methods, or patterns used

    3. LEARNING RESOURCES:
       - Suggest specific documentation or tutorials for further learning
       - Point out related concepts the user might want to explore

    4. NEXT STEPS:
       - Suggest how the user might extend or improve the solution
       - Mention potential edge cases or considerations for production use

    Make your explanation educational and helpful, assuming the user wants to understand not just what the solution is, but why it works and how they can learn from it.

    Format your response using Markdown for better readability, with code blocks for all code examples.
    "
    description := "Provides clear explanations of code solutions and concepts."
    output_key := "code_explanation"
    tools := [] }

/-- src/gradio.py `root_agent`: the four stages in fixed order. -/
def root_agent : SequentialAgent :=
  { name := "CodeAssistantAgent"
    sub_agents := [code_understanding_agent, research_agent, code_generation_agent, explanation_agent]
    description := "A comprehensive code assistant that helps with understanding problems, researching solutions, generating code, and explaining concepts." }

end Gradio

/-! ## Pipeline runner

The sources delegate execution to the framework classes
`SequentialAgent` / `Runner`, whose code is not in this repository; the
runner below is modelled from the spec. -/

/-- Modelled from the spec: the session-state entries a stage's prompt
construction reads are exactly the ones whose output-key the
instruction template references. -/
def referenced_state (a : LlmAgent) (state : SessionState) : SessionState :=
  state.filter (fun p => strContains a.instruction p.1)

/-- Modelled from the spec: build a stage's prompt by substituting the
instruction template with the original query text and the accumulated
outputs of previously executed stages, addressed by output-key. -/
def buildPrompt (a : LlmAgent) (query : String) (state : SessionState) : String :=
  (referenced_state a state).foldl
    (fun acc p => acc ++ "\n" ++ p.1 ++ ": " ++ p.2)
    (a.instruction ++ "\n" ++ query)

/-- Modelled from the spec: the framework's sequential runner.  It
executes the stage list in order: for each stage it builds the prompt,
invokes the text-generation capability `gen`, records the produced text
under the stage's declared output-key, and yields one final-response
event carrying that text (and, for analysis, the state the stage saw).
Returns the final session state and the event list. -/
def runSeq (gen : LlmAgent → String → String) (query : String) :
    List LlmAgent → SessionState → SessionState × List Event
  | [], state => (state, [])
  | a :: rest, state =>
    let out := gen a (buildPrompt a query state)
    let next := runSeq gen query rest (setKV state a.output_key out)
    (next.1,
     { author := a.name, seen_state := state, is_final_response := true, text := out } :: next.2)

/-! ## Final-response extraction (src/gradio.py lines 170-178) -/

/-- The loop in `process_code_query` that scans the event list and keeps
the text of the last final-response event, starting from `""`. -/
def select_final_response (events : List Event) : String :=
  events.foldl (fun acc e => if e.is_final_response then e.text else acc) ""

/-- The fixed fallback message of src/gradio.py line 176. -/
def FALLBACK_MESSAGE : String :=
  "I encountered an issue processing your request. Please try again or start a new session."

/-- src/gradio.py lines 175-176: substitute the fallback message when
the extracted final response is empty. -/
def apply_default (final_response : String) : String :=
  if final_response = "" then FALLBACK_MESSAGE else final_response

/-! ## Session service and application state -/

/-- A backing-store key: (app_name, user_id, session_id). -/
abbrev SessionKey := String × String × String

/-- The module-level mutable state of src/gradio.py: the
`user_sessions` dict, the `InMemorySessionService` backing store, and
the state of the uuid4 source (modelled as a counter indexing an
abstract stream `uuid : Nat → String`). -/
structure AppState where
  user_sessions : List (String × String)
  session_store : List (SessionKey × SessionState)
  next_uuid : Nat
  deriving Repr, DecidableEq

/-- Modelled from the spec: `InMemorySessionService.create_session`
initializes an empty backing record under the given key. -/
def create_session (st : AppState) (app_name user_id session_id : String) : AppState :=
  { st with session_store := setKV st.session_store (app_name, user_id, session_id) [] }

/-- Modelled from the spec: `InMemorySessionService.get_session` looks
the key up in the backing store; absence is the lookup failure that
src/gradio.py catches. -/
def get_session (st : AppState) (app_name user_id session_id : String) : Option SessionState :=
  getKV st.session_store (app_name, user_id, session_id)

/-- The session-id string `f"session_{uuid.uuid4()}"`; `uuid n` is the
n-th value of the abstract uuid4 stream. -/
def fresh_session_id (uuid : Nat → String) (n : Nat) : String :=
  "session_" ++ uuid n

namespace Gradio

/-- src/gradio.py `get_session_id`: return the recorded session id for
the user, allocating and recording a fresh one on first contact. -/
def get_session_id (uuid : Nat → String) (st : AppState) (user_identifier : String) :
    String × AppState :=
  match getKV st.user_sessions user_identifier with
  | some sid => (sid, st)
  | none =>
    let sid := fresh_session_id uuid st.next_uuid
    (sid,
     { st with
        user_sessions := setKV st.user_sessions user_identifier sid
        next_uuid := st.next_uuid + 1 })

/-- src/gradio.py `new_session`: unconditionally allocate a fresh id,
overwrite the user's mapping, create an empty backing record, and
return the status string. -/
def new_session (uuid : Nat → String) (st : AppState) (user_identifier : String) :
    String × AppState :=
  let sid := fresh_session_id uuid st.next_uuid
  let st1 :=
    { st with
        user_sessions := setKV st.user_sessions user_identifier sid
        next_uuid := st.next_uuid + 1 }
  let st2 := create_session st1 APP_NAME user_identifier sid
  ("Created new session: " ++ sid, st2)

/-- src/gradio.py `process_code_query`: resolve the session id, recover
from a backing-store miss by creating a fresh record under the same id
(the try/except of lines 157-160), run the four-stage pipeline against
the session state, store the resulting state, and return the extracted
final response with the default-on-empty policy applied. -/
def process_code_query (uuid : Nat → String) (gen : LlmAgent → String → String)
    (st : AppState) (user_query user_identifier : String) : String × AppState :=
  let r := get_session_id uuid st user_identifier
  let session_id := r.1
  let st1 := r.2
  let st2 :=
    match get_session st1 APP_NAME user_identifier session_id with
    | some _ => st1
    | none => create_session st1 APP_NAME user_identifier session_id
  let sess := (get_session st2 APP_NAME user_identifier session_id).getD []
  let run := runSeq gen user_query root_agent.sub_agents sess
  let st3 :=
    { st2 with session_store := setKV st2.session_store (APP_NAME, user_identifier, session_id) run.1 }
  (apply_default (select_final_response run.2), st3)

end Gradio

namespace ConsoleApp

def USER_ID : String := "developer_user_01"

def SESSION_ID : String := "coding_session_01"

/-- src/multi_tool_agent/agent.py `explanation_agent`: same as the
gradio variant except that the final Markdown-formatting sentence is
absent. -/
def explanation_agent : LlmAgent :=
  { name := "ExplanationAgent"
    model := GEMINI_MODEL
    instruction := "You are a Code Explanation AI.
    Review the coding task understanding, research, and solution from the session state.

    Create a comprehensive but concise explanation that includes:

    1. SOLUTION OVERVIEW:
       - Summarize the approach taken to solve the problem
       - Explain why this approach is appropriate

    2. CODE WALKTHROUGH:
       - Break down how the key parts of the code work
       - Highlight important functions, methods, or patterns used

    3. LEARNING RESOURCES:
       - Suggest specific documentation or tutorials for further learning
       - Point out related concepts the user might want to explore

    4. NEXT STEPS:
       - Suggest how the user might extend or improve the solution
       - Mention potential edge cases or considerations for production use

    Make your explanation educational and helpful, assuming the user wants to understand not just what the solution is, but why it works and how they can learn from it.
    "
    description := "Provides clear explanations of code solutions and concepts."
    output_key := "code_explanation"
    tools := [] }

/-- src/multi_tool_agent/agent.py `root_agent`: the first three
sub-agents are textually identical to the gradio ones. -/
def root_agent : SequentialAgent :=
  { name := "CodeAssistantAgent"
    sub_agents := [Gradio.code_understanding_agent, Gradio.research_agent, Gradio.code_generation_agent, explanation_agent]
    description := "A comprehensive code assistant that helps with understanding problems, researching solutions, generating code, and explaining concepts." }

/-- src/multi_tool_agent/agent.py lines 153-157: the console loop over
the events; for every final-response event it prints a header line and
the event's text, with no default-on-empty substitution. -/
def print_final_responses (events : List Event) : List String :=
  events.foldl
    (fun acc e =>
      if e.is_final_response then acc ++ ["\nCode Assistant Response:", e.text] else acc)
    []

/-- src/multi_tool_agent/agent.py `call_agent`: print the query line,
run the pipeline against the module's fixed session state, print each
final response, and return None (modelled as `none`).  Result:
(printed lines, return value, updated session state). -/
def call_agent (gen : LlmAgent → String → String) (sess : SessionState) (query : String) :
    List String × Option String × SessionState :=
  let run := runSeq gen query root_agent.sub_agents sess
  (("\nUser Query: " ++ query) :: print_final_responses run.2, none, run.1)

end ConsoleApp

/-! ## Definitions used only by the analysis -/

/-- `readsKey a key` holds when the instruction template of stage `a`
mentions the session-state key `key`. -/
def readsKey (a : LlmAgent) (key : String) : Bool :=
  strContains a.instruction key

/-- The deterministic stand-in for the text-generation capability used
by the spec's determinism property: every stage call returns
"stage:" followed by the stage name. -/
def stub_gen (a : LlmAgent) (_prompt : String) : String :=
  "stage:" ++ a.name

/-- A concrete injective uuid stream for instantiations: the n-th uuid
is the string of n copies of the letter u. -/
def uuidW (n : Nat) : String :=
  String.mk (List.replicate n 'u')

/-- Invariant of the module-level state: every recorded session id (in
the user mapping and in the backing store) came from an already-consumed
position of the uuid stream, and distinct users are mapped to distinct
session ids. -/
def RegistryInv (uuid : Nat → String) (st : AppState) : Prop :=
  (∀ p ∈ st.user_sessions, ∃ m, m < st.next_uuid ∧ p.2 = fresh_session_id uuid m) ∧
  (∀ q ∈ st.session_store, ∃ m, m < st.next_uuid ∧ q.1.2.2 = fresh_session_id uuid m) ∧
  (∀ u1 u2 s1 s2, getKV st.user_sessions u1 = some s1 → getKV st.user_sessions u2 = some s2 →
    u1 ≠ u2 → s1 ≠ s2)

/-! ## Helper lemmas -/

theorem getKV_setKV_same {α β : Type} [DecidableEq α] (m : List (α × β)) (k : α) (v : β) :
    getKV (setKV m k v) k = some v := by
  simp [getKV, setKV]

theorem getKV_setKV_ne {α β : Type} [DecidableEq α] (m : List (α × β)) (k k' : α) (v : β)
    (h : k ≠ k') : getKV (setKV m k v) k' = getKV m k' := by
  simp [getKV, setKV, h]

theorem getKV_mem {α β : Type} [DecidableEq α] {m : List (α × β)} {k : α} {v : β}
    (h : getKV m k = some v) : (k, v) ∈ m := by
  induction m with
  | nil => simp [getKV] at h
  | cons p rest ih =>
    obtain ⟨a, b⟩ := p
    by_cases hk : a = k
    · subst hk
      simp [getKV] at h
      subst h
      exact List.mem_cons_self _ _
    · simp [getKV, hk] at h
      exact List.mem_cons_of_mem _ (ih h)

theorem getKV_eq_none {α β : Type} [DecidableEq α] {m : List (α × β)} {k : α}
    (h : ∀ p ∈ m, p.1 ≠ k) : getKV m k = none := by
  induction m with
  | nil => rfl
  | cons p rest ih =>
    have hp : p.1 ≠ k := h p (List.mem_cons_self p rest)
    simp only [getKV, if_neg hp]
    exact ih (fun q hq => h q (List.mem_cons_of_mem _ hq))

theorem string_append_left_cancel {p a b : String} (h : p ++ a = p ++ b) : a = b := by
  have hd := congrArg String.data h
  simp only [String.data_append] at hd
  exact String.ext (List.append_cancel_left hd)

theorem fresh_session_id_inj (uuid : Nat → String) (hinj : Function.Injective uuid)
    {m n : Nat} (h : fresh_session_id uuid m = fresh_session_id uuid n) : m = n :=
  hinj (string_append_left_cancel h)

theorem fresh_ne_of_lt (uuid : Nat → String) (hinj : Function.Injective uuid)
    {m n : Nat} (hmn : m < n) : fresh_session_id uuid m ≠ fresh_session_id uuid n :=
  fun h => absurd (fresh_session_id_inj uuid hinj h) (Nat.ne_of_lt hmn)

theorem mapped_id_bounded {uuid : Nat → String} {L : List (String × String)} {n : Nat}
    (h : ∀ p ∈ L, ∃ m, m < n ∧ p.2 = fresh_session_id uuid m)
    {u s : String} (hget : getKV L u = some s) :
    ∃ m, m < n ∧ s = fresh_session_id uuid m :=
  h (u, s) (getKV_mem hget)

theorem mapped_id_ne_fresh {uuid : Nat → String} (hinj : Function.Injective uuid)
    {L : List (String × String)} {n n' : Nat}
    (h : ∀ p ∈ L, ∃ m, m < n ∧ p.2 = fresh_session_id uuid m) (hn : n ≤ n')
    {u s : String} (hget : getKV L u = some s) : s ≠ fresh_session_id uuid n' := by
  obtain ⟨m, hm, rfl⟩ := mapped_id_bounded h hget
  exact fresh_ne_of_lt uuid hinj (Nat.lt_of_lt_of_le hm hn)

theorem store_miss_of_fresh {uuid : Nat → String} (hinj : Function.Injective uuid)
    {store : List (SessionKey × SessionState)} {n : Nat}
    (h : ∀ q ∈ store, ∃ m, m < n ∧ q.1.2.2 = fresh_session_id uuid m)
    (a u : String) : getKV store (a, u, fresh_session_id uuid n) = none := by
  refine getKV_eq_none (fun q hq hkey => ?_)
  obtain ⟨m, hm, hid⟩ := h q hq
  have : q.1.2.2 = fresh_session_id uuid n := by rw [hkey]
  exact fresh_ne_of_lt uuid hinj hm (hid ▸ this)

theorem foldl_final_empty : ∀ (events : List Event) (acc : String),
    (∀ e ∈ events, e.is_final_response = true → e.text = "") → acc = "" →
    events.foldl (fun a e => if e.is_final_response then e.text else a) acc = ""
  | [], _, _, hacc => hacc
  | e :: rest, acc, h, hacc => by
    simp only [List.foldl_cons]
    refine foldl_final_empty rest _ (fun e' he' hf' => h e' (List.mem_cons_of_mem _ he') hf') ?_
    by_cases hf : e.is_final_response = true
    · simp [hf, h e (List.mem_cons_self _ _) hf]
    · simp only [Bool.not_eq_true] at hf
      simp [hf, hacc]

theorem select_final_response_empty {events : List Event}
    (h : ∀ e ∈ events, e.is_final_response = true → e.text = "") :
    select_final_response events = "" :=
  foldl_final_empty events "" h rfl

theorem runSeq_all_empty {gen : LlmAgent → String → String}
    (hgen : ∀ a p, gen a p = "") (q : String) :
    ∀ (agents : List LlmAgent) (s : SessionState),
      ∀ e ∈ (runSeq gen q agents s).2, e.text = ""
  | [], _ => by simp [runSeq]
  | a :: rest, s => by
    intro e he
    simp only [runSeq, List.mem_cons] at he
    rcases he with rfl | he
    · exact hgen a _
    · exact runSeq_all_empty hgen q rest _ e he

theorem fallback_ne_empty : FALLBACK_MESSAGE ≠ "" := by decide

theorem uuidW_inj : Function.Injective uuidW := by
  intro a b h
  have := congrArg (fun s => s.data.length) h
  simpa [uuidW] using this

theorem registryInv_empty (uuid : Nat → String) : RegistryInv uuid ⟨[], [], 0⟩ := by
  refine ⟨by simp, by simp, ?_⟩
  intro u1 u2 s1 s2 h1
  simp [getKV] at h1

theorem get_session_id_store_frame (uuid : Nat → String) (st : AppState) (u : String) :
    (Gradio.get_session_id uuid st u).2.session_store = st.session_store := by
  rcases h : getKV st.user_sessions u with _ | sid <;> simp [Gradio.get_session_id, h]

theorem get_session_id_map_other (uuid : Nat → String) (st : AppState) (u u' : String)
    (h : u' ≠ u) :
    getKV (Gradio.get_session_id uuid st u).2.user_sessions u' = getKV st.user_sessions u' := by
  rcases hm : getKV st.user_sessions u with _ | sid
  · simp [Gradio.get_session_id, hm, getKV_setKV_ne _ u u' _ (Ne.symm h)]
  · simp [Gradio.get_session_id, hm]

theorem key_ne_of_user_ne {a1 u1 s1 a2 u2 s2 : String} (h : u1 ≠ u2) :
    ((a1, u1, s1) : SessionKey) ≠ (a2, u2, s2) := by
  intro hk
  rw [Prod.mk.injEq, Prod.mk.injEq] at hk
  exact h hk.2.1

theorem process_store_frame (uuid : Nat → String) (gen : LlmAgent → String → String)
    (st : AppState) (q u a u' s : String) (h : u' ≠ u) :
    getKV (Gradio.process_code_query uuid gen st q u).2.session_store (a, u', s)
      = getKV st.session_store (a, u', s) := by
  have hk : ∀ sid : String, ((APP_NAME, u, sid) : SessionKey) ≠ (a, u', s) :=
    fun _ => key_ne_of_user_ne (Ne.symm h)
  have hfr := get_session_id_store_frame uuid st u
  rcases hms : get_session (Gradio.get_session_id uuid st u).2 APP_NAME u
      (Gradio.get_session_id uuid st u).1 with _ | sess
  · simp [Gradio.process_code_query, hms, create_session,
      getKV_setKV_ne _ _ _ _ (hk _), hfr]
  · simp [Gradio.process_code_query, hms, getKV_setKV_ne _ _ _ _ (hk _), hfr]

theorem process_map_frame (uuid : Nat → String) (gen : LlmAgent → String → String)
    (st : AppState) (q u u' : String) (h : u' ≠ u) :
    getKV (Gradio.process_code_query uuid gen st q u).2.user_sessions u'
      = getKV st.user_sessions u' := by
  have hmo := get_session_id_map_other uuid st u u' h
  rcases hms : get_session (Gradio.get_session_id uuid st u).2 APP_NAME u
      (Gradio.get_session_id uuid st u).1 with _ | sess
  · simp [Gradio.process_code_query, hms, create_session, hmo]
  · simp [Gradio.process_code_query, hms, hmo]

theorem resolve_pair_ne (uuid : Nat → String) (st : AppState) (u1 u2 : String)
    (hinj : Function.Injective uuid) (hInv : RegistryInv uuid st) (hne : u1 ≠ u2) :
    (Gradio.get_session_id uuid st u1).1
      ≠ (Gradio.get_session_id uuid (Gradio.get_session_id uuid st u1).2 u2).1 := by
  obtain ⟨h1, _, h3⟩ := hInv
  rcases hm1 : getKV st.user_sessions u1 with _ | s1
  · rcases hm2 : getKV st.user_sessions u2 with _ | s2
    · simp only [Gradio.get_session_id, hm1,
        getKV_setKV_ne _ u1 u2 _ hne, hm2]
      exact fresh_ne_of_lt uuid hinj (Nat.lt_succ_self _)
    · simp only [Gradio.get_session_id, hm1,
        getKV_setKV_ne _ u1 u2 _ hne, hm2]
      exact (mapped_id_ne_fresh hinj h1 (Nat.le_refl _) hm2).symm
  · rcases hm2 : getKV st.user_sessions u2 with _ | s2
    · simp only [Gradio.get_session_id, hm1, hm2]
      exact mapped_id_ne_fresh hinj h1 (Nat.le_refl _) hm1
    · simp only [Gradio.get_session_id, hm1, hm2]
      exact h3 u1 u2 s1 s2 hm1 hm2 hne

theorem process_after_reset (uuid : Nat → String) (gen : LlmAgent → String → String)
    (st : AppState) (q u : String) :
    (Gradio.process_code_query uuid gen (Gradio.new_session uuid st u).2 q u).1
      = apply_default (select_final_response (runSeq gen q Gradio.root_agent.sub_agents []).2) := by
  simp [Gradio.new_session, Gradio.process_code_query, Gradio.get_session_id, create_session,
    get_session, getKV_setKV_same]

theorem pfr_foldl : ∀ (events : List Event) (acc : List String),
    events.foldl
      (fun acc e =>
        if e.is_final_response then acc ++ ["\nCode Assistant Response:", e.text] else acc)
      acc
      = acc ++ ConsoleApp.print_final_responses events
  | [], acc => by simp [ConsoleApp.print_final_responses]
  | e :: rest, acc => by
    simp only [List.foldl_cons, ConsoleApp.print_final_responses]
    rw [pfr_foldl rest, pfr_foldl rest]
    by_cases hf : e.is_final_response = true <;> simp [hf]

theorem pfr_cons (e : Event) (rest : List Event) :
    ConsoleApp.print_final_responses (e :: rest)
      = (if e.is_final_response then ["\nCode Assistant Response:", e.text] else [])
        ++ ConsoleApp.print_final_responses rest := by
  show (e :: rest).foldl _ [] = _
  simp only [List.foldl_cons]
  rw [pfr_foldl rest]
  by_cases hf : e.is_final_response = true <;> simp [hf]

theorem header_ne_fallback : ("\nCode Assistant Response:" : String) ≠ FALLBACK_MESSAGE := by
  decide

theorem registryInv_single (uuid : Nat → String) (u s : String) (m n : Nat)
    (hm : m < n) (hs : s = fresh_session_id uuid m) :
    RegistryInv uuid ⟨[(u, s)], [], n⟩ := by
  refine ⟨?_, by simp, ?_⟩
  · intro p hp
    simp at hp
    exact ⟨m, hm, by rw [hp, hs]⟩
  · intro u1 u2 s1 s2 hg1 hg2 hne
    have e1 : u1 = u := by
      by_cases h : u = u1
      · exact h.symm
      · simp [getKV, h] at hg1
    have e2 : u2 = u := by
      by_cases h : u = u2
      · exact h.symm
      · simp [getKV, h] at hg2
    exact absurd (e1.trans e2.symm) hne

end CodeAssist

open CodeAssist

/-- C1: if no stage produces a non-empty final output (every
final-response event carries an empty string, or no final-response
event occurs), the extraction loop of `process_code_query` yields `""`
and the default-on-empty policy substitutes exactly the fixed fallback
message, which is non-empty; in particular, when the text-generation
capability returns `""` for every stage, `process_code_query` returns
the fallback message and never an empty string. -/
theorem claim1_fallback_on_empty_output :
    (∀ events : List Event, (∀ e ∈ events, e.is_final_response = true → e.text = "") →
      apply_default (select_final_response events) = FALLBACK_MESSAGE ∧
      apply_default (select_final_response events) ≠ "")
    ∧ (∀ (uuid : Nat → String) (gen : LlmAgent → String → String) (st : AppState) (q u : String),
        (∀ a p, gen a p = "") →
        (Gradio.process_code_query uuid gen st q u).1 = FALLBACK_MESSAGE ∧
        (Gradio.process_code_query uuid gen st q u).1 ≠ "") := by
  constructor
  · intro events h
    rw [select_final_response_empty h]
    exact ⟨by simp [apply_default], by simp [apply_default, fallback_ne_empty]⟩
  · intro uuid gen st q u hgen
    have hempty : ∀ sess : SessionState, select_final_response
        (runSeq gen q Gradio.root_agent.sub_agents sess).2 = "" :=
      fun sess => select_final_response_empty
        (fun e he _ => runSeq_all_empty hgen q _ _ e he)
    constructor
    · show apply_default _ = FALLBACK_MESSAGE
      rw [hempty]
      simp [apply_default]
    · show apply_default _ ≠ ""
      rw [hempty]
      simp [apply_default, fallback_ne_empty]

/-- C1 witness: at the concrete one-event list whose final-response
event carries `""`, and at a concrete app state with the
constantly-empty generator, the fallback message is returned. -/
theorem claim1_fallback_on_empty_output_witness :
    apply_default (select_final_response
        [{ author := "CodeUnderstandingAgent", seen_state := [],
           is_final_response := true, text := "" }]) = FALLBACK_MESSAGE ∧
    (Gradio.process_code_query (fun n => toString n) (fun _ _ => "")
        ⟨[], [], 0⟩ "hello" "default_user").1 = FALLBACK_MESSAGE :=
  ⟨(claim1_fallback_on_empty_output.1 _ (by intro e he _; simp at he; rw [he])).1,
   (claim1_fallback_on_empty_output.2 (fun n => toString n) (fun _ _ => "")
      ⟨[], [], 0⟩ "hello" "default_user" (fun _ _ => rfl)).1⟩

/-- C2: any run of the pipeline (for any generator, query and starting
session state) produces exactly one event per stage, in the fixed order
CodeUnderstandingAgent, ResearchAgent, CodeGenerationAgent,
ExplanationAgent — in both the gradio and the console wiring — and each
later stage starts from the preceding stage's state extended with the
preceding stage's output under its output-key (so no stage starts
before the previous stage's text is available). -/
theorem claim2_stages_once_in_fixed_order (gen : LlmAgent → String → String)
    (query : String) (state : SessionState) :
    ((runSeq gen query Gradio.root_agent.sub_agents state).2.map Event.author
       = ["CodeUnderstandingAgent", "ResearchAgent", "CodeGenerationAgent", "ExplanationAgent"])
    ∧ ((runSeq gen query ConsoleApp.root_agent.sub_agents state).2.map Event.author
       = ["CodeUnderstandingAgent", "ResearchAgent", "CodeGenerationAgent", "ExplanationAgent"])
    ∧ (∃ e1 e2 e3 e4,
        (runSeq gen query Gradio.root_agent.sub_agents state).2 = [e1, e2, e3, e4]
        ∧ e1.seen_state = state
        ∧ e2.seen_state = setKV e1.seen_state Gradio.code_understanding_agent.output_key e1.text
        ∧ e3.seen_state = setKV e2.seen_state Gradio.research_agent.output_key e2.text
        ∧ e4.seen_state = setKV e3.seen_state Gradio.code_generation_agent.output_key e3.text) := by
  refine ⟨?_, ?_, ?_⟩
  · simp [runSeq, Gradio.root_agent, Gradio.code_understanding_agent, Gradio.research_agent,
      Gradio.code_generation_agent, Gradio.explanation_agent]
  · simp [runSeq, ConsoleApp.root_agent, Gradio.code_understanding_agent, Gradio.research_agent,
      Gradio.code_generation_agent, ConsoleApp.explanation_agent]
  · exact ⟨_, _, _, _, rfl, rfl, rfl, rfl, rfl⟩

/-- C3: in the four-stage pipeline, no stage's instruction template
mentions the output-key of the same or a later stage (stage k reads
only keys of stages 1..k-1); in particular CodeGenerationAgent mentions
coding_task_understanding and coding_research but never
code_explanation, and on a session state holding all four output-keys
its prompt construction selects exactly the first two entries. -/
theorem claim3_stage_reads_only_earlier_keys :
    (∀ i j : Fin Gradio.root_agent.sub_agents.length, i ≤ j →
      readsKey (Gradio.root_agent.sub_agents.get i)
        ((Gradio.root_agent.sub_agents.get j).output_key) = false)
    ∧ readsKey Gradio.code_generation_agent "coding_task_understanding" = true
    ∧ readsKey Gradio.code_generation_agent "coding_research" = true
    ∧ readsKey Gradio.code_generation_agent "code_explanation" = false
    ∧ (∀ w x y z : String,
        referenced_state Gradio.code_generation_agent
          [("coding_task_understanding", w), ("coding_research", x),
           ("code_solution", y), ("code_explanation", z)]
        = [("coding_task_understanding", w), ("coding_research", x)]) := by
  refine ⟨by decide, by decide, by decide, by decide, ?_⟩
  intro w x y z
  have h1 : strContains Gradio.code_generation_agent.instruction "coding_task_understanding" = true := by decide
  have h2 : strContains Gradio.code_generation_agent.instruction "coding_research" = true := by decide
  have h3 : strContains Gradio.code_generation_agent.instruction "code_solution" = false := by decide
  have h4 : strContains Gradio.code_generation_agent.instruction "code_explanation" = false := by decide
  simp [referenced_state, h1, h2, h3, h4]

/-- C4: if the backing store has no record under the session id
resolved for the user, `process_code_query` does not propagate an
error: it creates a fresh empty record under that same id, the run
proceeds against it (the returned text is the normal pipeline result
computed from the empty session state), and afterwards the store holds
the run's resulting state under the resolved id. -/
theorem claim4_session_miss_self_healing (uuid : Nat → String)
    (gen : LlmAgent → String → String) (st : AppState) (q u : String)
    (hmiss : getKV st.session_store
        (APP_NAME, u, (Gradio.get_session_id uuid st u).1) = none) :
    (Gradio.process_code_query uuid gen st q u).1
      = apply_default (select_final_response (runSeq gen q Gradio.root_agent.sub_agents []).2)
    ∧ getKV (Gradio.process_code_query uuid gen st q u).2.session_store
        (APP_NAME, u, (Gradio.get_session_id uuid st u).1)
      = some (runSeq gen q Gradio.root_agent.sub_agents []).1 := by
  have hfr := get_session_id_store_frame uuid st u
  constructor <;>
    simp [Gradio.process_code_query, get_session, hfr, hmiss, create_session, getKV_setKV_same]

/-- C4 witness: starting from the empty module state (where every store
lookup misses), the recovery path runs the pipeline against a fresh
empty session record. -/
theorem claim4_session_miss_self_healing_witness :
    (Gradio.process_code_query uuidW stub_gen ⟨[], [], 0⟩ "q" "alice").1
      = apply_default (select_final_response
          (runSeq stub_gen "q" Gradio.root_agent.sub_agents []).2)
    ∧ getKV (Gradio.process_code_query uuidW stub_gen ⟨[], [], 0⟩ "q" "alice").2.session_store
        (APP_NAME, "alice", (Gradio.get_session_id uuidW ⟨[], [], 0⟩ "alice").1)
      = some (runSeq stub_gen "q" Gradio.root_agent.sub_agents []).1 :=
  claim4_session_miss_self_healing uuidW stub_gen ⟨[], [], 0⟩ "q" "alice" rfl

/-- C5: `get_session_id` returns an already-recorded session id
unchanged (state included); for an unrecorded user it allocates the
next id of the uuid stream — which, under the registry invariant,
differs from every session id recorded anywhere — records the mapping
for that user, and returns it. -/
theorem claim5_get_session_id_contract (uuid : Nat → String) (st : AppState) (u : String)
    (hinj : Function.Injective uuid) (hInv : RegistryInv uuid st) :
    (∀ sid, getKV st.user_sessions u = some sid → Gradio.get_session_id uuid st u = (sid, st))
    ∧ (getKV st.user_sessions u = none →
        (Gradio.get_session_id uuid st u).1 = fresh_session_id uuid st.next_uuid
        ∧ getKV (Gradio.get_session_id uuid st u).2.user_sessions u
            = some (Gradio.get_session_id uuid st u).1
        ∧ (∀ p ∈ st.user_sessions, p.2 ≠ (Gradio.get_session_id uuid st u).1)
        ∧ (∀ sk ∈ st.session_store, sk.1.2.2 ≠ (Gradio.get_session_id uuid st u).1)) := by
  obtain ⟨h1, h2, _⟩ := hInv
  constructor
  · intro sid h
    simp [Gradio.get_session_id, h]
  · intro h
    have hfst : (Gradio.get_session_id uuid st u).1 = fresh_session_id uuid st.next_uuid := by
      simp [Gradio.get_session_id, h]
    refine ⟨hfst, ?_, ?_, ?_⟩
    · simp [Gradio.get_session_id, h, getKV_setKV_same]
    · intro p hp
      rw [hfst]
      obtain ⟨m, hm, hpe⟩ := h1 p hp
      rw [hpe]
      exact fresh_ne_of_lt uuid hinj hm
    · intro sk hsk
      rw [hfst]
      obtain ⟨m, hm, hpe⟩ := h2 sk hsk
      rw [hpe]
      exact fresh_ne_of_lt uuid hinj hm

/-- C5 witness: an already-mapped user gets the recorded id back with
the state unchanged, and an unmapped user on the empty state gets the
first id of the stream, which is recorded for them. -/
theorem claim5_get_session_id_contract_witness :
    Gradio.get_session_id uuidW ⟨[("alice", "session_")], [], 1⟩ "alice"
      = ("session_", ⟨[("alice", "session_")], [], 1⟩)
    ∧ (Gradio.get_session_id uuidW ⟨[], [], 0⟩ "bob").1 = fresh_session_id uuidW 0
    ∧ getKV (Gradio.get_session_id uuidW ⟨[], [], 0⟩ "bob").2.user_sessions "bob"
        = some (Gradio.get_session_id uuidW ⟨[], [], 0⟩ "bob").1 := by
  have hpresent :=
    (claim5_get_session_id_contract uuidW ⟨[("alice", "session_")], [], 1⟩ "alice" uuidW_inj
      (registryInv_single uuidW "alice" "session_" 0 1 (by decide) (by decide))).1
      "session_" (by decide)
  have habsent :=
    (claim5_get_session_id_contract uuidW ⟨[], [], 0⟩ "bob" uuidW_inj
      (registryInv_empty uuidW)).2 rfl
  exact ⟨hpresent, habsent.1, habsent.2.1⟩

/-- C6: `new_session` unconditionally allocates a fresh id, overwrites
the user's mapping with it, and initializes an empty backing record
under it; called twice in a row it yields two distinct ids, and after
the second call the user's mapping no longer reaches the first id. -/
theorem claim6_new_session_fresh_overwrite (uuid : Nat → String) (st : AppState) (u : String)
    (hinj : Function.Injective uuid) :
    ∃ sid1 sid2,
      (Gradio.new_session uuid st u).1 = "Created new session: " ++ sid1
      ∧ getKV (Gradio.new_session uuid st u).2.user_sessions u = some sid1
      ∧ getKV (Gradio.new_session uuid st u).2.session_store (APP_NAME, u, sid1) = some []
      ∧ (Gradio.new_session uuid (Gradio.new_session uuid st u).2 u).1
          = "Created new session: " ++ sid2
      ∧ getKV (Gradio.new_session uuid (Gradio.new_session uuid st u).2 u).2.user_sessions u
          = some sid2
      ∧ getKV (Gradio.new_session uuid (Gradio.new_session uuid st u).2 u).2.session_store
          (APP_NAME, u, sid2) = some []
      ∧ sid1 ≠ sid2
      ∧ getKV (Gradio.new_session uuid (Gradio.new_session uuid st u).2 u).2.user_sessions u
          ≠ some sid1 := by
  have hne : fresh_session_id uuid st.next_uuid ≠ fresh_session_id uuid (st.next_uuid + 1) :=
    fresh_ne_of_lt uuid hinj (Nat.lt_succ_self _)
  have hmap2 : getKV (Gradio.new_session uuid (Gradio.new_session uuid st u).2 u).2.user_sessions u
      = some (fresh_session_id uuid (st.next_uuid + 1)) := by
    simp [Gradio.new_session, create_session, getKV_setKV_same]
  refine ⟨fresh_session_id uuid st.next_uuid, fresh_session_id uuid (st.next_uuid + 1),
    rfl, ?_, ?_, rfl, hmap2, ?_, hne, ?_⟩
  · simp [Gradio.new_session, create_session, getKV_setKV_same]
  · simp [Gradio.new_session, create_session, getKV_setKV_same]
  · simp [Gradio.new_session, create_session, getKV_setKV_same]
  · rw [hmap2]
    intro hcontra
    exact hne (Option.some.inj hcontra).symm

/-- C6 witness: on the empty state with the concrete injective uuid
stream, the two consecutive calls yield the recorded fresh ids. -/
theorem claim6_new_session_fresh_overwrite_witness :
    ∃ sid1 sid2,
      (Gradio.new_session uuidW ⟨[], [], 0⟩ "alice").1 = "Created new session: " ++ sid1
      ∧ getKV (Gradio.new_session uuidW ⟨[], [], 0⟩ "alice").2.user_sessions "alice" = some sid1
      ∧ getKV (Gradio.new_session uuidW ⟨[], [], 0⟩ "alice").2.session_store
          (APP_NAME, "alice", sid1) = some []
      ∧ (Gradio.new_session uuidW (Gradio.new_session uuidW ⟨[], [], 0⟩ "alice").2 "alice").1
          = "Created new session: " ++ sid2
      ∧ getKV (Gradio.new_session uuidW
            (Gradio.new_session uuidW ⟨[], [], 0⟩ "alice").2 "alice").2.user_sessions "alice"
          = some sid2
      ∧ getKV (Gradio.new_session uuidW
            (Gradio.new_session uuidW ⟨[], [], 0⟩ "alice").2 "alice").2.session_store
          (APP_NAME, "alice", sid2) = some []
      ∧ sid1 ≠ sid2
      ∧ getKV (Gradio.new_session uuidW
            (Gradio.new_session uuidW ⟨[], [], 0⟩ "alice").2 "alice").2.user_sessions "alice"
          ≠ some sid1 :=
  claim6_new_session_fresh_overwrite uuidW ⟨[], [], 0⟩ "alice" uuidW_inj

/-- C7: with the deterministic stand-in generator, running the pipeline
on a freshly reset session with query "hello" returns
"stage:ExplanationAgent" (the last stage's output), and a repeated run
under the same conditions returns the same result. -/
theorem claim7_stub_run_deterministic (uuid : Nat → String) (st : AppState) (u : String) :
    ((Gradio.process_code_query uuid stub_gen (Gradio.new_session uuid st u).2 "hello" u).1
       = "stage:ExplanationAgent")
    ∧ ((Gradio.process_code_query uuid stub_gen
          (Gradio.new_session uuid
            (Gradio.process_code_query uuid stub_gen
              (Gradio.new_session uuid st u).2 "hello" u).2 u).2 "hello" u).1
       = "stage:ExplanationAgent") := by
  have hval : apply_default (select_final_response
      (runSeq stub_gen "hello" Gradio.root_agent.sub_agents []).2) = "stage:ExplanationAgent" := by
    decide
  exact ⟨(process_after_reset uuid stub_gen st "hello" u).trans hval,
         (process_after_reset uuid stub_gen _ "hello" u).trans hval⟩

/-- C8: for distinct users, the session ids resolved by consecutive
`get_session_id` calls differ (under the registry invariant), and the
sessions are independent: a `process_code_query` run for one user
leaves every backing-store entry of the other user untouched, in both
directions. -/
theorem claim8_distinct_users_isolated (uuid : Nat → String)
    (gen : LlmAgent → String → String) (st : AppState) (q u1 u2 : String)
    (hinj : Function.Injective uuid) (hInv : RegistryInv uuid st) (hne : u1 ≠ u2) :
    ((Gradio.get_session_id uuid st u1).1
       ≠ (Gradio.get_session_id uuid (Gradio.get_session_id uuid st u1).2 u2).1)
    ∧ (∀ (st' : AppState) (a s : String),
        getKV (Gradio.process_code_query uuid gen st' q u1).2.session_store (a, u2, s)
          = getKV st'.session_store (a, u2, s))
    ∧ (∀ (st' : AppState) (a s : String),
        getKV (Gradio.process_code_query uuid gen st' q u2).2.session_store (a, u1, s)
          = getKV st'.session_store (a, u1, s)) :=
  ⟨resolve_pair_ne uuid st u1 u2 hinj hInv hne,
   fun st' a s => process_store_frame uuid gen st' q u1 a u2 s (Ne.symm hne),
   fun st' a s => process_store_frame uuid gen st' q u2 a u1 s hne⟩

/-- C8 witness: on the empty state the ids resolved for alice and bob
differ, and a run for alice does not create or change any store entry
of bob. -/
theorem claim8_distinct_users_isolated_witness :
    ((Gradio.get_session_id uuidW ⟨[], [], 0⟩ "alice").1
       ≠ (Gradio.get_session_id uuidW
            (Gradio.get_session_id uuidW ⟨[], [], 0⟩ "alice").2 "bob").1)
    ∧ getKV (Gradio.process_code_query uuidW stub_gen ⟨[], [], 0⟩ "q" "alice").2.session_store
        (APP_NAME, "bob", "session_")
      = getKV (⟨[], [], 0⟩ : AppState).session_store (APP_NAME, "bob", "session_") :=
  ⟨(claim8_distinct_users_isolated uuidW stub_gen ⟨[], [], 0⟩ "q" "alice" "bob" uuidW_inj
      (registryInv_empty uuidW) (by decide)).1,
   (claim8_distinct_users_isolated uuidW stub_gen ⟨[], [], 0⟩ "q" "alice" "bob" uuidW_inj
      (registryInv_empty uuidW) (by decide)).2.1 ⟨[], [], 0⟩ APP_NAME "session_"⟩

/-- C9: for a user with no recorded mapping, `get_session_id` mutates
only the user-to-session-id mapping: the backing store is returned
exactly as it was, the mapping is extended at that user with the
returned id, and (under the registry invariant) the store holds no
record under the returned id, for any app name and user id. -/
theorem claim9_resolve_touches_only_mapping (uuid : Nat → String) (st : AppState) (u : String)
    (hinj : Function.Injective uuid) (hInv : RegistryInv uuid st)
    (habs : getKV st.user_sessions u = none) :
    ((Gradio.get_session_id uuid st u).2.session_store = st.session_store)
    ∧ ((Gradio.get_session_id uuid st u).2.user_sessions
        = setKV st.user_sessions u (Gradio.get_session_id uuid st u).1)
    ∧ (∀ a u' : String,
        getKV (Gradio.get_session_id uuid st u).2.session_store
          (a, u', (Gradio.get_session_id uuid st u).1) = none) := by
  obtain ⟨_, h2, _⟩ := hInv
  have hfst : (Gradio.get_session_id uuid st u).1 = fresh_session_id uuid st.next_uuid := by
    simp [Gradio.get_session_id, habs]
  refine ⟨get_session_id_store_frame uuid st u, ?_, ?_⟩
  · simp [Gradio.get_session_id, habs]
  · intro a u'
    rw [get_session_id_store_frame uuid st u, hfst]
    exact store_miss_of_fresh hinj h2 a u'

/-- C9 witness: resolving an unseen user on the empty state leaves the
(empty) store untouched and no record exists under the returned id. -/
theorem claim9_resolve_touches_only_mapping_witness :
    ((Gradio.get_session_id uuidW ⟨[], [], 0⟩ "alice").2.session_store
        = (⟨[], [], 0⟩ : AppState).session_store)
    ∧ getKV (Gradio.get_session_id uuidW ⟨[], [], 0⟩ "alice").2.session_store
        (APP_NAME, "alice", (Gradio.get_session_id uuidW ⟨[], [], 0⟩ "alice").1) = none :=
  ⟨(claim9_resolve_touches_only_mapping uuidW ⟨[], [], 0⟩ "alice" uuidW_inj
      (registryInv_empty uuidW) rfl).1,
   (claim9_resolve_touches_only_mapping uuidW ⟨[], [], 0⟩ "alice" uuidW_inj
      (registryInv_empty uuidW) rfl).2.2 APP_NAME "alice"⟩

/-- C10: the console front end applies no default-on-empty policy:
`call_agent` always returns None and prints the query line followed by
one header-and-text pair per final-response event; if no event is a
final response nothing beyond the query line is printed; an empty final
text is printed as the empty string; and the fixed fallback message
appears in the printed output only if some final-response event itself
carried it. -/
theorem claim10_console_prints_raw_finals :
    (∀ (gen : LlmAgent → String → String) (sess : SessionState) (q : String),
        (ConsoleApp.call_agent gen sess q).2.1 = none
        ∧ (ConsoleApp.call_agent gen sess q).1
            = ("\nUser Query: " ++ q) ::
              ConsoleApp.print_final_responses
                (runSeq gen q ConsoleApp.root_agent.sub_agents sess).2)
    ∧ (∀ events : List Event, (∀ e ∈ events, e.is_final_response = false) →
        ConsoleApp.print_final_responses events = [])
    ∧ (∀ (events : List Event) (e : Event), e ∈ events → e.is_final_response = true →
        e.text ∈ ConsoleApp.print_final_responses events)
    ∧ (∀ events : List Event, FALLBACK_MESSAGE ∈ ConsoleApp.print_final_responses events →
        ∃ e, e ∈ events ∧ e.is_final_response = true ∧ e.text = FALLBACK_MESSAGE) := by
  refine ⟨fun gen sess q => ⟨rfl, rfl⟩, ?_, ?_, ?_⟩
  · intro events h
    induction events with
    | nil => rfl
    | cons e rest ih =>
      rw [pfr_cons, h e (List.mem_cons_self _ _)]
      simpa using ih (fun e' he' => h e' (List.mem_cons_of_mem _ he'))
  · intro events e he hf
    induction events with
    | nil => simp at he
    | cons e0 rest ih =>
      rw [pfr_cons]
      rcases List.mem_cons.mp he with rfl | he'
      · rw [hf]
        simp
      · exact List.mem_append_right _ (ih he')
  · intro events hmem
    induction events with
    | nil => simp [ConsoleApp.print_final_responses] at hmem
    | cons e rest ih =>
      rw [pfr_cons] at hmem
      rcases List.mem_append.mp hmem with hl | hr
      · by_cases hf : e.is_final_response = true
        · rw [if_pos hf] at hl
          rcases List.mem_cons.mp hl with hh | ht
          · exact absurd hh.symm header_ne_fallback
          · exact ⟨e, List.mem_cons_self _ _, hf, (List.mem_singleton.mp ht).symm⟩
        · rw [if_neg hf] at hl
          simp at hl
      · obtain ⟨e', he', hf', ht'⟩ := ih hr
        exact ⟨e', List.mem_cons_of_mem _ he', hf', ht'⟩

/-- C10 witness: a run whose only event is not a final response prints
nothing beyond the query line, and an empty final text is printed as
the empty string. -/
theorem claim10_console_prints_raw_finals_witness :
    ConsoleApp.print_final_responses
      [{ author := "CodeUnderstandingAgent", seen_state := [],
         is_final_response := false, text := "x" }] = []
    ∧ "" ∈ ConsoleApp.print_final_responses
        [{ author := "ExplanationAgent", seen_state := [],
           is_final_response := true, text := "" }] :=
  ⟨claim10_console_prints_raw_finals.2.1 _ (by intro e he; simp at he; rw [he]),
   claim10_console_prints_raw_finals.2.2.1 _ _ (List.mem_singleton.mpr rfl) rfl⟩

/-- C3 witness: stage 1 (CodeUnderstandingAgent) does not mention its
own output-key, and stage 3 does not mention stage 4's output-key. -/
theorem claim3_stage_reads_only_earlier_keys_witness :
    readsKey (Gradio.root_agent.sub_agents.get ⟨0, by decide⟩)
      ((Gradio.root_agent.sub_agents.get ⟨0, by decide⟩).output_key) = false
    ∧ readsKey (Gradio.root_agent.sub_agents.get ⟨2, by decide⟩)
      ((Gradio.root_agent.sub_agents.get ⟨3, by decide⟩).output_key) = false :=
  ⟨claim3_stage_reads_only_earlier_keys.1 ⟨0, by decide⟩ ⟨0, by decide⟩ (by decide),
   claim3_stage_reads_only_earlier_keys.1 ⟨2, by decide⟩ ⟨3, by decide⟩ (by decide)⟩
